import Mathlib

/-!
Shallow embedding of the two browser modules in
`assets/js/github-metrics.js`: the GitHub profile-stats updater and the
contact-info obfuscator (email / telegram placeholder rewriting), together
with proofs of the specification's claims about them.
-/

/-- A JavaScript value as far as `sanitizeEmailPart` can observe it:
`null` (what `getAttribute` returns for a missing attribute), `undefined`,
a number, or a string. -/
inductive JSVal where
  | null
  | undefined
  | num (n : Int)
  | str (s : String)
deriving DecidableEq

/- Character classes of the two regexes in the source. -/

/-- `a-zA-Z` (regex letter ranges). -/
def isLetterChar (c : Char) : Bool :=
  ('a' ≤ c && c ≤ 'z') || ('A' ≤ c && c ≤ 'Z')

/-- `0-9`. -/
def isDigitChar (c : Char) : Bool :=
  '0' ≤ c && c ≤ '9'

/-- The class kept by the sanitizer regex `[^a-zA-Z0-9.\-_+]` (a character
survives iff it is in `[a-zA-Z0-9.\-_+]`). -/
def emailPartChar (c : Char) : Bool :=
  isLetterChar c || isDigitChar c || c == '.' || c == '-' || c == '_' || c == '+'

/-- Local-part class `[a-zA-Z0-9._\-+]` of the email regex. -/
def localChar (c : Char) : Bool :=
  isLetterChar c || isDigitChar c || c == '.' || c == '_' || c == '-' || c == '+'

/-- Domain class `[a-zA-Z0-9.\-]` of the email regex. -/
def domainChar (c : Char) : Bool :=
  isLetterChar c || isDigitChar c || c == '.' || c == '-'

/-- `sanitizeEmailPart(str)`: empty string for falsy or non-string input,
otherwise `str.replace(/[^a-zA-Z0-9.\-_+]/g, '')`, i.e. the characters of
the whitelist kept in order. -/
def sanitizeEmailPart : JSVal → String
  | JSVal.str s => if s = "" then "" else ⟨s.data.filter emailPartChar⟩
  | _ => ""

/-- `[a-zA-Z]{2,}$`: the tld piece of the email regex. -/
def matchTld (T : List Char) : Bool :=
  decide (2 ≤ T.length) && T.all isLetterChar

/-- `[a-zA-Z0-9.\-]+\.[a-zA-Z]{2,}$` applied to the part after the `@`:
true iff some split point gives a non-empty domain run, a literal dot and
a valid tld (the regex engine's backtracking search over split points). -/
def matchDomainTld (R : List Char) : Bool :=
  (List.range R.length).any fun i =>
    decide (0 < i) && (R.take i).all domainChar &&
      (match R.drop i with
       | c :: T => c == '.' && matchTld T
       | [] => false)

/-- The whole anchored regex `^[a-zA-Z0-9._\-+]+@[a-zA-Z0-9.\-]+\.[a-zA-Z]{2,}$`
on a character list.  The local run is maximal (`takeWhile`): since `@` is
not a local character, a shorter run cannot be followed by `@`, so this is
exactly the regex's match semantics. -/
def matchEmail (cs : List Char) : Bool :=
  match cs.dropWhile localChar with
  | c :: R => c == '@' && (!(cs.takeWhile localChar).isEmpty && matchDomainTld R)
  | [] => false

/-- `isValidEmail(email)`: the falsy guard (`''` is rejected) followed by
`emailRegex.test(email)`. -/
def isValidEmail (email : String) : Bool :=
  if email = "" then false else matchEmail email.data

/-- Spec-side statement of the email pattern, written from the spec's
words: local-part `@` domain-labels `.` tld, local-part non-empty over
{letters, digits, `.`, `_`, `-`, `+`}, domain-labels non-empty over
{letters, digits, `.`, `-`}, tld letters only of length at least 2. -/
def EmailPattern (s : String) : Prop :=
  ∃ L M T : List Char,
    s.data = L ++ '@' :: (M ++ '.' :: T) ∧
    L ≠ [] ∧ (∀ c ∈ L, localChar c = true) ∧
    M ≠ [] ∧ (∀ c ∈ M, domainChar c = true) ∧
    2 ≤ T.length ∧ (∀ c ∈ T, isLetterChar c = true)

/- URI encoding (ECMAScript `encodeURI` / `encodeURIComponent`), used on
the assembled email and telegram username. -/

/-- Hex digit used by percent-encoding (upper case, as ECMAScript). -/
def hexDigit (n : Nat) : Char :=
  if n < 10 then Char.ofNat ('0'.toNat + n) else Char.ofNat ('A'.toNat + n - 10)

/-- UTF-8 bytes of a code point, for percent-encoding. -/
def utf8Bytes (n : Nat) : List Nat :=
  if n < 0x80 then [n]
  else if n < 0x800 then [0xC0 + n / 64, 0x80 + n % 64]
  else if n < 0x10000 then
    [0xE0 + n / 4096, 0x80 + n / 64 % 64, 0x80 + n % 64]
  else
    [0xF0 + n / 262144, 0x80 + n / 4096 % 64, 0x80 + n / 64 % 64, 0x80 + n % 64]

/-- `%XX` percent-encoding of one character. -/
def percentEncode (c : Char) : List Char :=
  (utf8Bytes c.toNat).flatMap fun b => ['%', hexDigit (b / 16), hexDigit (b % 16)]

/-- Characters `encodeURI` leaves as-is: `uriAlpha`, digits, marks and
reserved characters plus `#`. -/
def uriUnescaped (c : Char) : Bool :=
  isLetterChar c || isDigitChar c ||
  c == '-' || c == '_' || c == '.' || c == '!' || c == '~' || c == '*' ||
  c == '\'' || c == '(' || c == ')' ||
  c == ';' || c == '/' || c == '?' || c == ':' || c == '@' || c == '&' ||
  c == '=' || c == '+' || c == '$' || c == ',' || c == '#'

/-- Characters `encodeURIComponent` leaves as-is: `uriAlpha`, digits and
marks only (in particular `+` and `@` are escaped). -/
def uriComponentUnescaped (c : Char) : Bool :=
  isLetterChar c || isDigitChar c ||
  c == '-' || c == '_' || c == '.' || c == '!' || c == '~' || c == '*' ||
  c == '\'' || c == '(' || c == ')'

/-- ECMAScript `encodeURI`. -/
def encodeURI (s : String) : String :=
  ⟨s.data.flatMap fun c => if uriUnescaped c then [c] else percentEncode c⟩

/-- ECMAScript `encodeURIComponent`. -/
def encodeURIComponent (s : String) : String :=
  ⟨s.data.flatMap fun c => if uriComponentUnescaped c then [c] else percentEncode c⟩

/- DOM element model: the fields the obfuscator reads and writes. -/

/-- A DOM element as the contact-obfuscator observes it: tag name, class,
text (`textContent` / `innerText`) and its attribute list. -/
structure Elem where
  tagName : String
  className : String
  textContent : String
  innerText : String
  attrs : List (String × String)
deriving DecidableEq

/-- `element.getAttribute(name)`: the attribute's value, or null (here
`none`) when absent. -/
def Elem.getAttr (e : Elem) (name : String) : Option String :=
  e.attrs.lookup name

/-- Bridge from `getAttribute`'s string-or-null result to `JSVal`. -/
def jsOfAttr : Option String → JSVal
  | none => JSVal.null
  | some s => JSVal.str s

/-- `setAttribute` / property write: replace the attribute if present,
append it otherwise. -/
def setAttr (l : List (String × String)) (k v : String) : List (String × String) :=
  if l.any (fun p => p.1 == k) then
    l.map fun p => if p.1 == k then (k, v) else p
  else l ++ [(k, v)]

/-- `getElementText(element)`: `element.textContent || element.innerText || ''`. -/
def getElementText (e : Elem) : String :=
  if e.textContent ≠ "" then e.textContent
  else if e.innerText ≠ "" then e.innerText
  else ""

/-- Per-element input of pass 1: the `.protected-email` span, its
`parentElement` (none when the element has no parent element) and whether
`parentNode` is non-null. -/
structure SpanCtx where
  elem : Elem
  parentElement : Option Elem
  hasParentNode : Bool
deriving DecidableEq

/-- What a scan-and-transform pass did to one element. -/
inductive SpanOutcome where
  | unchanged
  | replacedBy (link : Elem)
deriving DecidableEq

/-- Outcome of one element's processing plus the warnings logged for it. -/
structure SpanResult where
  outcome : SpanOutcome
  warnings : List String
deriving DecidableEq

/-- The anchor pass 1 builds: `href = 'mailto:' + encodeURI(email)`, class
copied, label from `getElementText`, aria-label and `rel="noopener"`. -/
def mkEmailLink (e : Elem) (email : String) : Elem :=
  { tagName := "A"
    className := e.className
    textContent := getElementText e
    innerText := ""
    attrs := [("href", "mailto:" ++ encodeURI email),
              ("aria-label", "Send email to " ++ email),
              ("rel", "noopener")] }

/-- Pass 1 body of `processProtectedEmails` for one `.protected-email`
element: sanitize the three data attributes, skip with a warning when one
is empty, assemble and validate the email, skip with a warning when
invalid, then replace the span by the mailto anchor only when the parent
element exists, is not an anchor, and `parentNode` is non-null. -/
def processProtectedEmailSpan (ctx : SpanCtx) : SpanResult :=
  let user := sanitizeEmailPart (jsOfAttr (ctx.elem.getAttr "data-user"))
  let domain := sanitizeEmailPart (jsOfAttr (ctx.elem.getAttr "data-domain"))
  let tld := sanitizeEmailPart (jsOfAttr (ctx.elem.getAttr "data-tld"))
  if user = "" ∨ domain = "" ∨ tld = "" then
    ⟨SpanOutcome.unchanged, ["Email protection: Missing data attributes"]⟩
  else
    let email := user ++ "@" ++ domain ++ "." ++ tld
    if isValidEmail email then
      match ctx.parentElement with
      | some p =>
        if p.tagName ≠ "A" then
          if ctx.hasParentNode then
            ⟨SpanOutcome.replacedBy (mkEmailLink ctx.elem email), []⟩
          else ⟨SpanOutcome.unchanged, []⟩
        else ⟨SpanOutcome.unchanged, []⟩
      | none => ⟨SpanOutcome.unchanged, []⟩
    else
      ⟨SpanOutcome.unchanged, ["Email protection: Invalid email format: " ++ email]⟩

/-- Result of pass 2 on one anchor: the (possibly mutated) element and the
warnings logged for it. -/
structure LinkResult where
  elem : Elem
  warnings : List String
deriving DecidableEq

/-- Pass 2 body of `processProtectedEmails` for one
`a[data-user][data-domain][data-tld]` anchor: same sanitize / assemble /
validate steps; on success the anchor is mutated in place (`href`,
aria-label, `rel`). -/
def processProtectedEmailLink (a : Elem) : LinkResult :=
  let user := sanitizeEmailPart (jsOfAttr (a.getAttr "data-user"))
  let domain := sanitizeEmailPart (jsOfAttr (a.getAttr "data-domain"))
  let tld := sanitizeEmailPart (jsOfAttr (a.getAttr "data-tld"))
  if user = "" ∨ domain = "" ∨ tld = "" then
    ⟨a, ["Email protection: Missing data attributes in link"]⟩
  else
    let email := user ++ "@" ++ domain ++ "." ++ tld
    if isValidEmail email then
      let attrs1 := setAttr a.attrs "href" ("mailto:" ++ encodeURI email)
      let attrs2 := setAttr attrs1 "aria-label" ("Send email to " ++ email)
      let attrs3 := setAttr attrs2 "rel" "noopener"
      ⟨{ a with attrs := attrs3 }, []⟩
    else
      ⟨a, ["Email protection: Invalid email format in link: " ++ email]⟩

/-- Per-element input of pass 3: the `.protected-telegram` element and
whether its `parentNode` is non-null. -/
structure TgCtx where
  elem : Elem
  hasParentNode : Bool
deriving DecidableEq

/-- The anchor pass 3 builds: `href = 'https://t.me/' +
encodeURIComponent(username)`, class copied, `target="_blank"`,
`rel="noopener noreferrer"`, label from `getElementText`, aria-label. -/
def mkTelegramLink (e : Elem) (username : String) : Elem :=
  { tagName := "A"
    className := e.className
    textContent := getElementText e
    innerText := ""
    attrs := [("href", "https://t.me/" ++ encodeURIComponent username),
              ("target", "_blank"),
              ("rel", "noopener noreferrer"),
              ("aria-label", "Telegram " ++ username)] }

/-- Body of `processProtectedTelegram` for one `.protected-telegram`
element: sanitize `data-username`, skip with a warning when empty,
otherwise build the t.me anchor and replace the element when `parentNode`
is non-null. -/
def processProtectedTelegramElem (ctx : TgCtx) : SpanResult :=
  let username := sanitizeEmailPart (jsOfAttr (ctx.elem.getAttr "data-username"))
  if username = "" then
    ⟨SpanOutcome.unchanged, ["Telegram protection: Missing username"]⟩
  else if ctx.hasParentNode then
    ⟨SpanOutcome.replacedBy (mkTelegramLink ctx.elem username), []⟩
  else ⟨SpanOutcome.unchanged, []⟩

/- ProfileStatsUpdater model. -/

/-- The JSON body fields `updateStats` reads. -/
structure GHUser where
  followers : Int
  following : Int
deriving DecidableEq

/-- Outcome of the HTTP GET in `fetchGitHubData`: a 2xx response with a
well-formed JSON body, a non-2xx status, a network error (the fetch
promise rejects), or a 2xx response whose body fails to parse as JSON. -/
inductive FetchOutcome where
  | success (body : GHUser)
  | httpError (status : Nat)
  | networkError
  | malformedJson
deriving DecidableEq

/-- `fetchGitHubData()`: the parsed body on success; on any failure the
error is caught and logged and `null` is returned.  The boolean records
whether `console.error` fired. -/
def fetchGitHubData : FetchOutcome → Option GHUser × Bool
  | FetchOutcome.success body => (some body, false)
  | _ => (none, true)

/-- One `strong` element holding a count. -/
structure StrongElem where
  text : String
deriving DecidableEq

/-- The `.sidebar-stats` container: its `strong:first-of-type` and
`strong:last-of-type` descendants, each possibly absent. -/
structure StatsContainer where
  followersElement : Option StrongElem
  followingElement : Option StrongElem
deriving DecidableEq

/-- The part of the page `updateStats` touches: the `.sidebar-stats`
element, possibly absent. -/
structure StatsDom where
  statsElement : Option StatsContainer
deriving DecidableEq

/-- `updateStats()`: fetch, and if data came back, set the two counters'
text (numbers coerced to strings); each absent element is skipped.  The
boolean records whether an error was logged. -/
def updateStats (outcome : FetchOutcome) (dom : StatsDom) : StatsDom × Bool :=
  match fetchGitHubData outcome with
  | (none, logged) => (dom, logged)
  | (some data, logged) =>
    match dom.statsElement with
    | none => (dom, logged)
    | some c =>
      ({ statsElement := some
          { followersElement := c.followersElement.map fun _ => ⟨toString data.followers⟩
            followingElement := c.followingElement.map fun _ => ⟨toString data.following⟩ } },
       logged)

/- Abbreviations for the sanitized attribute values of an element, as the
two email passes compute them. -/

/-- Sanitized `data-user` of an element. -/
def sanitizedUser (e : Elem) : String :=
  sanitizeEmailPart (jsOfAttr (e.getAttr "data-user"))

/-- Sanitized `data-domain` of an element. -/
def sanitizedDomain (e : Elem) : String :=
  sanitizeEmailPart (jsOfAttr (e.getAttr "data-domain"))

/-- Sanitized `data-tld` of an element. -/
def sanitizedTld (e : Elem) : String :=
  sanitizeEmailPart (jsOfAttr (e.getAttr "data-tld"))

/-- Sanitized `data-username` of an element. -/
def sanitizedUsername (e : Elem) : String :=
  sanitizeEmailPart (jsOfAttr (e.getAttr "data-username"))

/-- The email string both email passes assemble: `user + '@' + domain + '.' + tld`. -/
def assembledEmail (e : Elem) : String :=
  sanitizedUser e ++ "@" ++ sanitizedDomain e ++ "." ++ sanitizedTld e

/-- The attribute list pass 2 leaves on a successfully processed anchor:
href, then aria-label, then rel, written in the source's order. -/
def emailLinkAttrs (a : Elem) : List (String × String) :=
  setAttr (setAttr (setAttr a.attrs
    "href" ("mailto:" ++ encodeURI (assembledEmail a)))
    "aria-label" ("Send email to " ++ assembledEmail a))
    "rel" "noopener"

/-- The gate both email passes put in front of the link conversion: all
three sanitized parts non-empty and the assembled email valid. -/
def emailPartsValid (e : Elem) : Prop :=
  sanitizedUser e ≠ "" ∧ sanitizedDomain e ≠ "" ∧ sanitizedTld e ≠ "" ∧
    isValidEmail (assembledEmail e) = true

/- Concrete page fragments used to instantiate the theorems. -/

/-- A plain paragraph, used as a parent element. -/
def paraElem : Elem := ⟨"P", "", "", "", []⟩

/-- The placeholder span of the spec's XSS scenario:
`data-user="john<script>"`, `data-domain="example"`, `data-tld="com"`. -/
def spanScript : Elem :=
  ⟨"SPAN", "protected-email", "Email me", "",
   [("data-user", "john<script>"), ("data-domain", "example"), ("data-tld", "com")]⟩

/-- The XSS-scenario span sitting under a paragraph. -/
def ctxScript : SpanCtx := ⟨spanScript, some paraElem, true⟩

/-- A placeholder span missing `data-tld`. -/
def spanMissingTld : Elem :=
  ⟨"SPAN", "protected-email", "write me", "",
   [("data-user", "john"), ("data-domain", "example")]⟩

/-- The `data-tld`-less span sitting under a paragraph. -/
def ctxMissingTld : SpanCtx := ⟨spanMissingTld, some paraElem, true⟩

/-- A placeholder span whose three attributes are all present and valid. -/
def spanValid : Elem :=
  ⟨"SPAN", "protected-email", "mail", "",
   [("data-user", "john"), ("data-domain", "example"), ("data-tld", "com")]⟩

/-- The valid span with no parent element. -/
def ctxNoParent : SpanCtx := ⟨spanValid, none, true⟩

/-- The telegram placeholder of the spec's scenario: `data-username="abc_123"`. -/
def tgSpan : Elem :=
  ⟨"SPAN", "protected-telegram contact-link", "Telegram", "",
   [("data-username", "abc_123")]⟩

/-- The telegram placeholder sitting in the document. -/
def tgCtxOk : TgCtx := ⟨tgSpan, true⟩

/-- A stats page with both counter elements present. -/
def domBoth : StatsDom := ⟨some ⟨some ⟨"1"⟩, some ⟨"2"⟩⟩⟩

/-! ## Helper lemmas -/

/-- Every character of a sanitizer output is in the whitelist. -/
theorem sanitize_chars (v : JSVal) (c : Char)
    (hc : c ∈ (sanitizeEmailPart v).data) : emailPartChar c = true := by
  cases v with
  | str s =>
    by_cases hs : s = ""
    · simp [sanitizeEmailPart, hs] at hc
    · simp only [sanitizeEmailPart, if_neg hs] at hc
      exact (List.mem_filter.mp hc).2
  | null => simp [sanitizeEmailPart] at hc
  | undefined => simp [sanitizeEmailPart] at hc
  | num n => simp [sanitizeEmailPart] at hc

/-! ## C1 -/

/-- Claim C1: `sanitizeEmailPart` returns `""` on absent / non-string input
(in particular on null, undefined and the number 123), and on a string it
returns a string of whitelist characters only that is a subsequence of the
input. -/
theorem sanitizeEmailPart_spec :
    (sanitizeEmailPart JSVal.null = "" ∧ sanitizeEmailPart JSVal.undefined = "" ∧
      sanitizeEmailPart (JSVal.num 123) = "") ∧
    (∀ v : JSVal, (∀ s, v ≠ JSVal.str s) → sanitizeEmailPart v = "") ∧
    (∀ s : String,
      (∀ c ∈ (sanitizeEmailPart (JSVal.str s)).data, emailPartChar c = true) ∧
      List.Sublist (sanitizeEmailPart (JSVal.str s)).data s.data) := by
  refine ⟨⟨rfl, rfl, rfl⟩, ?_, ?_⟩
  · intro v hv
    cases v with
    | str s => exact absurd rfl (hv s)
    | null => rfl
    | undefined => rfl
    | num n => rfl
  · intro s
    refine ⟨fun c hc => sanitize_chars (JSVal.str s) c hc, ?_⟩
    by_cases hs : s = ""
    · simp [sanitizeEmailPart, hs]
    · simp only [sanitizeEmailPart, if_neg hs]
      exact List.filter_sublist s.data

/-- Witness for C1 at concrete inputs. -/
theorem sanitizeEmailPart_spec_witness :
    sanitizeEmailPart (JSVal.num 5) = "" ∧
    (∀ c ∈ (sanitizeEmailPart (JSVal.str "a<b")).data, emailPartChar c = true) ∧
    List.Sublist (sanitizeEmailPart (JSVal.str "a<b")).data ("a<b" : String).data :=
  ⟨sanitizeEmailPart_spec.2.1 (JSVal.num 5) (fun _ h => JSVal.noConfusion h),
   (sanitizeEmailPart_spec.2.2 "a<b").1,
   (sanitizeEmailPart_spec.2.2 "a<b").2⟩

/-! ## C5 -/

/-- Claim C5: when the HTTP GET fails in any way (non-2xx, network error,
malformed JSON), `updateStats` leaves the page untouched and logs the
error; it consists of this single attempt. -/
theorem updateStats_failure (o : FetchOutcome) (dom : StatsDom)
    (h : ∀ u, o ≠ FetchOutcome.success u) :
    updateStats o dom = (dom, true) := by
  cases o with
  | success u => exact absurd rfl (h u)
  | httpError s => rfl
  | networkError => rfl
  | malformedJson => rfl

/-- Witness for C5: a 500 response changes nothing and logs the error. -/
theorem updateStats_failure_witness :
    updateStats (FetchOutcome.httpError 500) domBoth = (domBoth, true) :=
  updateStats_failure (FetchOutcome.httpError 500) domBoth
    (fun _ h => FetchOutcome.noConfusion h)

/-! ## C6 -/

/-- Claim C6: on a successful response `{followers: 42, following: 7}` with
container and both targets present the texts become "42" and "7"; when the
container, or one of the two targets, is absent that part of the update
does nothing and nothing is logged. -/
theorem updateStats_success :
    (∀ t1 t2 : String,
      updateStats (FetchOutcome.success ⟨42, 7⟩) ⟨some ⟨some ⟨t1⟩, some ⟨t2⟩⟩⟩ =
        (⟨some ⟨some ⟨"42"⟩, some ⟨"7"⟩⟩⟩, false)) ∧
    (∀ u : GHUser,
      updateStats (FetchOutcome.success u) ⟨none⟩ = (⟨none⟩, false)) ∧
    (∀ (u : GHUser) (t : String),
      updateStats (FetchOutcome.success u) ⟨some ⟨none, some ⟨t⟩⟩⟩ =
        (⟨some ⟨none, some ⟨toString u.following⟩⟩⟩, false)) ∧
    (∀ (u : GHUser) (t : String),
      updateStats (FetchOutcome.success u) ⟨some ⟨some ⟨t⟩, none⟩⟩ =
        (⟨some ⟨some ⟨toString u.followers⟩, none⟩⟩, false)) :=
  ⟨fun _ _ => rfl, fun _ => rfl, fun _ _ => rfl, fun _ _ => rfl⟩

/-- Witness for C6 at a concrete page. -/
theorem updateStats_success_witness :
    updateStats (FetchOutcome.success ⟨42, 7⟩) domBoth =
      (⟨some ⟨some ⟨"42"⟩, some ⟨"7"⟩⟩⟩, false) :=
  updateStats_success.1 "1" "2"

/-! ## C7 -/

/-- Claim C7: a pass-1 placeholder with a missing or empty-sanitizing
attribute is left unchanged and gets exactly one warning. -/
theorem emailSpan_missing_attr (ctx : SpanCtx)
    (h : sanitizedUser ctx.elem = "" ∨ sanitizedDomain ctx.elem = "" ∨
         sanitizedTld ctx.elem = "") :
    (processProtectedEmailSpan ctx).outcome = SpanOutcome.unchanged ∧
    (processProtectedEmailSpan ctx).warnings.length = 1 := by
  simp only [sanitizedUser, sanitizedDomain, sanitizedTld] at h
  simp only [processProtectedEmailSpan]
  rw [if_pos h]
  exact ⟨rfl, rfl⟩

/-- Witness for C7: a placeholder missing `data-tld`. -/
theorem emailSpan_missing_attr_witness :
    (processProtectedEmailSpan ctxMissingTld).outcome = SpanOutcome.unchanged ∧
    (processProtectedEmailSpan ctxMissingTld).warnings.length = 1 :=
  emailSpan_missing_attr ctxMissingTld (Or.inr (Or.inr (by decide)))

/-! ## C10 -/

/-- Claim C10: a pass-1 element without a parent element is never replaced,
whatever its data attributes hold. -/
theorem emailSpan_requires_parent (ctx : SpanCtx)
    (h : ctx.parentElement = none) :
    (processProtectedEmailSpan ctx).outcome = SpanOutcome.unchanged := by
  simp only [processProtectedEmailSpan, h]
  split
  · rfl
  · split
    · rfl
    · rfl

/-- Witness for C10: the attributes are all valid, yet the orphan span is
left unchanged. -/
theorem emailSpan_requires_parent_witness :
    emailPartsValid spanValid ∧
    (processProtectedEmailSpan ctxNoParent).outcome = SpanOutcome.unchanged :=
  ⟨by refine ⟨by decide, by decide, by decide, by decide⟩,
   emailSpan_requires_parent ctxNoParent rfl⟩

/-! ## C2 -/

/-- Claim C2: a placeholder is converted to (or filled in as) a link only
when all sanitized parts are non-empty and (for email) the assembled
address is valid; whenever that gate fails the element is left untouched
and a warning is logged — for all three passes. -/
theorem placeholder_link_invariant :
    (∀ ctx : SpanCtx,
      ((processProtectedEmailSpan ctx).outcome ≠ SpanOutcome.unchanged →
        emailPartsValid ctx.elem) ∧
      (¬ emailPartsValid ctx.elem →
        (processProtectedEmailSpan ctx).outcome = SpanOutcome.unchanged ∧
        (processProtectedEmailSpan ctx).warnings ≠ [])) ∧
    (∀ a : Elem,
      ((processProtectedEmailLink a).elem ≠ a → emailPartsValid a) ∧
      (¬ emailPartsValid a →
        (processProtectedEmailLink a).elem = a ∧
        (processProtectedEmailLink a).warnings ≠ [])) ∧
    (∀ ctx : TgCtx,
      ((processProtectedTelegramElem ctx).outcome ≠ SpanOutcome.unchanged →
        sanitizedUsername ctx.elem ≠ "") ∧
      (sanitizedUsername ctx.elem = "" →
        (processProtectedTelegramElem ctx).outcome = SpanOutcome.unchanged ∧
        (processProtectedTelegramElem ctx).warnings ≠ [])) := by
  refine ⟨fun ctx => ?_, fun a => ?_, fun ctx => ?_⟩
  · by_cases h1 : sanitizeEmailPart (jsOfAttr (ctx.elem.getAttr "data-user")) = "" ∨
        sanitizeEmailPart (jsOfAttr (ctx.elem.getAttr "data-domain")) = "" ∨
        sanitizeEmailPart (jsOfAttr (ctx.elem.getAttr "data-tld")) = ""
    · constructor
      · intro hconv
        exfalso
        apply hconv
        simp only [processProtectedEmailSpan]
        rw [if_pos h1]
      · intro _
        constructor
        · simp only [processProtectedEmailSpan]
          rw [if_pos h1]
        · simp only [processProtectedEmailSpan]
          rw [if_pos h1]
          simp
    · by_cases h2 : isValidEmail
          (sanitizeEmailPart (jsOfAttr (ctx.elem.getAttr "data-user")) ++ "@" ++
           sanitizeEmailPart (jsOfAttr (ctx.elem.getAttr "data-domain")) ++ "." ++
           sanitizeEmailPart (jsOfAttr (ctx.elem.getAttr "data-tld"))) = true
      · have hv : emailPartsValid ctx.elem := by
          push_neg at h1
          exact ⟨h1.1, h1.2.1, h1.2.2, h2⟩
        exact ⟨fun _ => hv, fun hnv => absurd hv hnv⟩
      · constructor
        · intro hconv
          exfalso
          apply hconv
          simp only [processProtectedEmailSpan]
          rw [if_neg h1, if_neg h2]
        · intro _
          constructor
          · simp only [processProtectedEmailSpan]
            rw [if_neg h1, if_neg h2]
          · simp only [processProtectedEmailSpan]
            rw [if_neg h1, if_neg h2]
            simp
  · by_cases h1 : sanitizeEmailPart (jsOfAttr (a.getAttr "data-user")) = "" ∨
        sanitizeEmailPart (jsOfAttr (a.getAttr "data-domain")) = "" ∨
        sanitizeEmailPart (jsOfAttr (a.getAttr "data-tld")) = ""
    · constructor
      · intro hmut
        exfalso
        apply hmut
        simp only [processProtectedEmailLink]
        rw [if_pos h1]
      · intro _
        constructor
        · simp only [processProtectedEmailLink]
          rw [if_pos h1]
        · simp only [processProtectedEmailLink]
          rw [if_pos h1]
          simp
    · by_cases h2 : isValidEmail
          (sanitizeEmailPart (jsOfAttr (a.getAttr "data-user")) ++ "@" ++
           sanitizeEmailPart (jsOfAttr (a.getAttr "data-domain")) ++ "." ++
           sanitizeEmailPart (jsOfAttr (a.getAttr "data-tld"))) = true
      · have hv : emailPartsValid a := by
          push_neg at h1
          exact ⟨h1.1, h1.2.1, h1.2.2, h2⟩
        exact ⟨fun _ => hv, fun hnv => absurd hv hnv⟩
      · constructor
        · intro hmut
          exfalso
          apply hmut
          simp only [processProtectedEmailLink]
          rw [if_neg h1, if_neg h2]
        · intro _
          constructor
          · simp only [processProtectedEmailLink]
            rw [if_neg h1, if_neg h2]
          · simp only [processProtectedEmailLink]
            rw [if_neg h1, if_neg h2]
            simp
  · by_cases h : sanitizeEmailPart (jsOfAttr (ctx.elem.getAttr "data-username")) = ""
    · constructor
      · intro hconv
        exfalso
        apply hconv
        simp only [processProtectedTelegramElem]
        rw [if_pos h]
      · intro _
        constructor
        · simp only [processProtectedTelegramElem]
          rw [if_pos h]
        · simp only [processProtectedTelegramElem]
          rw [if_pos h]
          simp
    · exact ⟨fun _ => h, fun he => absurd he h⟩

/-- Witness for C2: the span missing `data-tld` stays unchanged with a
warning. -/
theorem placeholder_link_invariant_witness :
    (processProtectedEmailSpan ctxMissingTld).outcome = SpanOutcome.unchanged ∧
    (processProtectedEmailSpan ctxMissingTld).warnings ≠ [] :=
  (placeholder_link_invariant.1 ctxMissingTld).2
    (fun hv => hv.2.2.1 (by decide))

/-! ## C4 -/

/-- Counterexample to C4 as stated: with `data-user="john<script>"` the
sanitizer removes only the angle brackets, so the produced href is
`mailto:johnscript@example.com` and not `mailto:john@example.com`. -/
theorem emailSpan_script_counterexample :
    (processProtectedEmailSpan ctxScript).outcome =
      SpanOutcome.replacedBy (mkEmailLink spanScript "johnscript@example.com") ∧
    (mkEmailLink spanScript "johnscript@example.com").getAttr "href" =
      some "mailto:johnscript@example.com" ∧
    (mkEmailLink spanScript "johnscript@example.com").getAttr "href" ≠
      some "mailto:john@example.com" :=
  ⟨by decide, by decide, by decide⟩

/-- Claim C4 (amended): the XSS placeholder is converted, the href equals
`mailto:johnscript@example.com` (the `<` and `>` are stripped, the tag
name's letters survive sanitization), and no markup character (`<` or `>`)
reaches any attribute or the label of the produced link. -/
theorem emailSpan_script_amended :
    (processProtectedEmailSpan ctxScript).outcome =
      SpanOutcome.replacedBy (mkEmailLink spanScript "johnscript@example.com") ∧
    (mkEmailLink spanScript "johnscript@example.com").getAttr "href" =
      some "mailto:johnscript@example.com" ∧
    ((mkEmailLink spanScript "johnscript@example.com").attrs.all
      fun p => p.2.data.all fun c => !(c == '<' || c == '>')) = true ∧
    ((mkEmailLink spanScript "johnscript@example.com").textContent.data.all
      fun c => !(c == '<' || c == '>')) = true ∧
    (mkEmailLink spanScript "johnscript@example.com").className = spanScript.className :=
  ⟨by decide, by decide, by decide, by decide, by decide⟩

/-! ## C8 -/

/-- Claim C8: the telegram placeholder with `data-username="abc_123"`
becomes an anchor with href `https://t.me/abc_123`, target `_blank`, a
rel containing both `noopener` and `noreferrer`, the class copied and the
label equal to the original element's text. -/
theorem telegram_anchor_spec :
    processProtectedTelegramElem tgCtxOk =
      ⟨SpanOutcome.replacedBy (mkTelegramLink tgSpan "abc_123"), []⟩ ∧
    (mkTelegramLink tgSpan "abc_123").getAttr "href" = some "https://t.me/abc_123" ∧
    (mkTelegramLink tgSpan "abc_123").getAttr "target" = some "_blank" ∧
    (mkTelegramLink tgSpan "abc_123").getAttr "rel" = some "noopener noreferrer" ∧
    List.IsInfix "noopener".data "noopener noreferrer".data ∧
    List.IsInfix "noreferrer".data "noopener noreferrer".data ∧
    (mkTelegramLink tgSpan "abc_123").className = tgSpan.className ∧
    (mkTelegramLink tgSpan "abc_123").textContent = tgSpan.textContent :=
  ⟨by decide, by decide, by decide, by decide,
   ⟨[], " noreferrer".data, by decide⟩,
   ⟨"noopener ".data, [], by decide⟩,
   by decide, by decide⟩

/-! ## C3 -/

/-- `takeWhile` / `dropWhile` split a list at its first failing element. -/
theorem takeWhile_middle (p : Char → Bool) (L r : List Char) (a : Char)
    (hL : ∀ c ∈ L, p c = true) (ha : p a = false) :
    (L ++ a :: r).takeWhile p = L ∧ (L ++ a :: r).dropWhile p = a :: r := by
  induction L with
  | nil => simp [List.takeWhile_cons, List.dropWhile_cons, ha]
  | cons c t ih =>
    have hc : p c = true := hL c (List.mem_cons_self c t)
    have ih2 := ih fun x hx => hL x (List.mem_cons_of_mem c hx)
    simp [List.cons_append, List.takeWhile_cons, List.dropWhile_cons, hc,
      ih2.1, ih2.2]

/-- Reduction of `matchEmail` once the local run's end is known. -/
theorem matchEmail_cons (cs : List Char) (c : Char) (R : List Char)
    (h : cs.dropWhile localChar = c :: R) :
    matchEmail cs =
      (c == '@' && (!(cs.takeWhile localChar).isEmpty && matchDomainTld R)) := by
  unfold matchEmail
  rw [h]

/-- Claim C3: `isValidEmail` returns true exactly on strings of the form
local-part `@` domain-labels `.` tld with the spec's character classes,
and the four spec examples evaluate as stated. -/
theorem isValidEmail_iff :
    (∀ s : String, isValidEmail s = true ↔ EmailPattern s) ∧
    isValidEmail "a@b.co" = true ∧ isValidEmail "a@b" = false ∧
    isValidEmail "a.b+c@d-e.f.io" = true ∧ isValidEmail "@b.co" = false := by
  refine ⟨fun s => ⟨?_, ?_⟩, by decide, by decide, by decide, by decide⟩
  · intro h
    unfold isValidEmail at h
    by_cases hs : s = ""
    · rw [if_pos hs] at h
      exact absurd h (by decide)
    · rw [if_neg hs] at h
      unfold matchEmail at h
      split at h
      · rename_i c R hd
        simp only [Bool.and_eq_true, beq_iff_eq, Bool.not_eq_true',
          List.isEmpty_eq_false] at h
        obtain ⟨hc, hne, hdom⟩ := h
        have hsplit : s.data = s.data.takeWhile localChar ++ c :: R := by
          conv_lhs => rw [← List.takeWhile_append_dropWhile (p := localChar)
            (l := s.data)]
          rw [hd]
        obtain ⟨i, hiR, hcond⟩ := List.any_eq_true.mp hdom
        have hi : i < R.length := List.mem_range.mp hiR
        simp only [Bool.and_eq_true, decide_eq_true_eq, List.all_eq_true]
          at hcond
        obtain ⟨⟨hi0, hall⟩, hmatch⟩ := hcond
        split at hmatch
        · rename_i c' T heq
          simp only [Bool.and_eq_true, beq_iff_eq] at hmatch
          obtain ⟨hc', htld⟩ := hmatch
          unfold matchTld at htld
          simp only [Bool.and_eq_true, decide_eq_true_eq, List.all_eq_true]
            at htld
          obtain ⟨hT2, hTall⟩ := htld
          have hR : R = R.take i ++ '.' :: T := by
            conv_lhs => rw [← List.take_append_drop i R]
            rw [heq, hc']
          refine ⟨s.data.takeWhile localChar, R.take i, T, ?_, hne,
            (fun x hx => List.mem_takeWhile_imp hx), ?_, hall, hT2, hTall⟩
          · calc s.data = s.data.takeWhile localChar ++ c :: R := hsplit
              _ = s.data.takeWhile localChar ++ '@' :: (R.take i ++ '.' :: T) := by
                  rw [hc, ← hR]
          · apply List.ne_nil_of_length_pos
            have : (R.take i).length = i := by
              rw [List.length_take]
              omega
            omega
        · exact absurd hmatch (by decide)
      · exact absurd h (by decide)
  · rintro ⟨L, M, T, hdata, hL, hLc, hM, hMc, hT2, hTc⟩
    have hne : s ≠ "" := by
      intro he
      have hd0 : s.data = [] := by rw [he]
      rw [hd0] at hdata
      exact absurd hdata.symm (by simp)
    unfold isValidEmail
    rw [if_neg hne]
    obtain ⟨htw, hdw⟩ :=
      takeWhile_middle localChar L (M ++ '.' :: T) '@' hLc (by decide)
    have hmd : matchDomainTld (M ++ '.' :: T) = true := by
      apply List.any_eq_true.mpr
      refine ⟨M.length, List.mem_range.mpr ?_, ?_⟩
      · simp only [List.length_append, List.length_cons]
        omega
      · rw [List.take_left, List.drop_left]
        have h0 : 0 < M.length := List.length_pos.mpr hM
        simp [matchTld, List.all_eq_true, h0, hT2]
        exact ⟨hMc, hTc⟩
    rw [hdata, matchEmail_cons _ '@' (M ++ '.' :: T) (hdata ▸ hdw), htw]
    simp [hL, hmd]

/-- Witness for C3: the pattern holds at a concrete valid address. -/
theorem isValidEmail_iff_witness : EmailPattern "a@b.co" :=
  (isValidEmail_iff.1 "a@b.co").mp (by decide)

/-! ## C9 -/

/-- Whitelist characters are never escaped by `encodeURI`. -/
theorem emailPartChar_unescaped (c : Char) (h : emailPartChar c = true) :
    uriUnescaped c = true := by
  simp only [emailPartChar, Bool.or_eq_true, beq_iff_eq] at h
  simp only [uriUnescaped, Bool.or_eq_true, beq_iff_eq]
  tauto

/-- `encodeURI`'s character map is the identity on unescaped characters. -/
theorem flatMapEncode_eq_self (l : List Char)
    (h : ∀ c ∈ l, uriUnescaped c = true) :
    (l.flatMap fun c => if uriUnescaped c then [c] else percentEncode c) = l := by
  induction l with
  | nil => rfl
  | cons c t ih =>
    have hc := h c (List.mem_cons_self c t)
    simp [List.flatMap_cons, hc, ih fun x hx => h x (List.mem_cons_of_mem c hx)]

/-- `encodeURI` fixes strings of unescaped characters. -/
theorem encodeURI_eq_self (s : String)
    (h : ∀ c ∈ s.data, uriUnescaped c = true) : encodeURI s = s := by
  cases s with
  | mk l => exact congrArg String.mk (flatMapEncode_eq_self l h)

/-- Every character of an email assembled from sanitizer outputs is left
alone by `encodeURI`. -/
theorem sanitized_assembly_unescaped (vu vd vt : JSVal) :
    ∀ c ∈ (sanitizeEmailPart vu ++ "@" ++ sanitizeEmailPart vd ++ "." ++
        sanitizeEmailPart vt).data, uriUnescaped c = true := by
  intro c hc
  simp only [String.data_append, List.mem_append] at hc
  rcases hc with (((h | h) | h) | h) | h
  · exact emailPartChar_unescaped c (sanitize_chars vu c h)
  · have h' : c ∈ ['@'] := h
    rw [List.mem_singleton] at h'
    subst h'
    decide
  · exact emailPartChar_unescaped c (sanitize_chars vd c h)
  · have h' : c ∈ ['.'] := h
    rw [List.mem_singleton] at h'
    subst h'
    decide
  · exact emailPartChar_unescaped c (sanitize_chars vt c h)

/-- `encodeURI` fixes the assembled email of any element. -/
theorem encodeURI_assembledEmail (e : Elem) :
    encodeURI (assembledEmail e) = assembledEmail e :=
  encodeURI_eq_self _
    (sanitized_assembly_unescaped (jsOfAttr (e.getAttr "data-user"))
      (jsOfAttr (e.getAttr "data-domain")) (jsOfAttr (e.getAttr "data-tld")))

/-- Looking up the key just replaced in an in-place `setAttribute`. -/
theorem lookup_map_set (l : List (String × String)) (k v : String)
    (h : l.any (fun p => p.1 == k) = true) :
    (l.map fun p => if p.1 == k then (k, v) else p).lookup k = some v := by
  induction l with
  | nil => simp at h
  | cons p t ih =>
    obtain ⟨a, b⟩ := p
    simp only [List.any_cons, Bool.or_eq_true] at h
    simp only [List.map_cons]
    by_cases hp : (a == k) = true
    · have ha : a = k := by simpa using hp
      subst ha
      simp only [beq_self_eq_true, if_pos]
      exact List.lookup_cons_self
    · have hp' : ((a, b).1 == k) = false := by
        simpa using Bool.of_not_eq_true hp
      rw [if_neg (by simpa using hp)]
      rw [List.lookup_cons]
      have hk : (k == a) = false := by
        simp only [beq_eq_false_iff_ne] at hp' ⊢
        exact Ne.symm hp'
      rw [hk]
      exact ih (h.resolve_left hp)
/-- Looking up an untouched key through an in-place `setAttribute`. -/
theorem lookup_map_set_ne (l : List (String × String)) (k k' v : String)
    (hk : (k == k') = false) :
    (l.map fun p => if p.1 == k' then (k', v) else p).lookup k = l.lookup k := by
  induction l with
  | nil => rfl
  | cons p t ih =>
    obtain ⟨a, b⟩ := p
    simp only [List.map_cons]
    by_cases hp : a = k'
    · subst hp
      simp only [beq_self_eq_true, if_pos]
      rw [List.lookup_cons, List.lookup_cons, hk]
      exact ih
    · rw [if_neg (by simpa using hp)]
      rw [List.lookup_cons, List.lookup_cons]
      cases hka : k == a with
      | false => exact ih
      | true => rfl
/-- `lookup` after append when the key is not in the prefix. -/
theorem lookup_setAttr_self (l : List (String × String)) (k v : String) :
    (setAttr l k v).lookup k = some v := by
  unfold setAttr
  split
  · rename_i hany
    exact lookup_map_set l k v hany
  · rename_i hany
    have hnone : l.lookup k = none := by
      simp only [List.any_eq_true, not_exists, not_and] at hany
      rw [List.lookup_eq_none_iff]
      intro p hp
      have hne := hany p hp
      simp only [beq_iff_eq] at hne
      simp only [bne_iff_ne]
      exact fun he => hne (he.symm)
    rw [List.lookup_append, hnone]
    simp

/-- `setAttribute` of one key does not change the lookup of another. -/
theorem lookup_setAttr_ne (l : List (String × String)) (k k' v : String)
    (hk : (k == k') = false) :
    (setAttr l k' v).lookup k = l.lookup k := by
  unfold setAttr
  split
  · exact lookup_map_set_ne l k k' v hk
  · rw [List.lookup_append]
    have h1 : ([(k', v)] : List (String × String)).lookup k = none := by
      rw [List.lookup_cons, hk]
      rfl
    rw [h1]
    cases l.lookup k <;> rfl

/-- Whenever pass 1 replaces an element, the new node is exactly the
mailto anchor built from the element's sanitized attributes. -/
theorem emailSpan_replaced_link (ctx : SpanCtx) (link : Elem)
    (h : (processProtectedEmailSpan ctx).outcome = SpanOutcome.replacedBy link) :
    link = mkEmailLink ctx.elem (assembledEmail ctx.elem) := by
  by_cases h1 : sanitizeEmailPart (jsOfAttr (ctx.elem.getAttr "data-user")) = "" ∨
      sanitizeEmailPart (jsOfAttr (ctx.elem.getAttr "data-domain")) = "" ∨
      sanitizeEmailPart (jsOfAttr (ctx.elem.getAttr "data-tld")) = ""
  · simp only [processProtectedEmailSpan] at h
    rw [if_pos h1] at h
    exact absurd h (by simp)
  · by_cases h2 : isValidEmail
        (sanitizeEmailPart (jsOfAttr (ctx.elem.getAttr "data-user")) ++ "@" ++
         sanitizeEmailPart (jsOfAttr (ctx.elem.getAttr "data-domain")) ++ "." ++
         sanitizeEmailPart (jsOfAttr (ctx.elem.getAttr "data-tld"))) = true
    · simp only [processProtectedEmailSpan] at h
      rw [if_neg h1, if_pos h2] at h
      split at h
      · split at h
        · split at h
          · have h3 : SpanOutcome.replacedBy
                (mkEmailLink ctx.elem (assembledEmail ctx.elem)) =
                SpanOutcome.replacedBy link := h
            injection h3 with h4
            exact h4.symm
          · exact absurd h (by simp)
        · exact absurd h (by simp)
      · exact absurd h (by simp)
    · simp only [processProtectedEmailSpan] at h
      rw [if_neg h1, if_neg h2] at h
      exact absurd h (by simp)

/-- Whenever pass 2 mutates an anchor silently (no warning), the result is
the anchor with its href, aria-label and rel filled in. -/
theorem emailLink_success_shape (a : Elem)
    (h : (processProtectedEmailLink a).warnings = []) :
    processProtectedEmailLink a = ⟨{ a with attrs := emailLinkAttrs a }, []⟩ := by
  by_cases h1 : sanitizeEmailPart (jsOfAttr (a.getAttr "data-user")) = "" ∨
      sanitizeEmailPart (jsOfAttr (a.getAttr "data-domain")) = "" ∨
      sanitizeEmailPart (jsOfAttr (a.getAttr "data-tld")) = ""
  · simp only [processProtectedEmailLink] at h
    rw [if_pos h1] at h
    exact absurd h (by simp)
  · by_cases h2 : isValidEmail
        (sanitizeEmailPart (jsOfAttr (a.getAttr "data-user")) ++ "@" ++
         sanitizeEmailPart (jsOfAttr (a.getAttr "data-domain")) ++ "." ++
         sanitizeEmailPart (jsOfAttr (a.getAttr "data-tld"))) = true
    · simp only [processProtectedEmailLink]
      rw [if_neg h1, if_pos h2]
      rfl
    · simp only [processProtectedEmailLink] at h
      rw [if_neg h1, if_neg h2] at h
      exact absurd h (by simp)

/-- Claim C9: an email assembled from non-empty sanitizer outputs is a
fixed point of `encodeURI`, so the href written by pass 1 and by pass 2 is
literally `"mailto:" ++ email`, with no percent-escape. -/
theorem sanitized_email_uri_fixed (vu vd vt : JSVal)
    (_hu : sanitizeEmailPart vu ≠ "") (_hdm : sanitizeEmailPart vd ≠ "")
    (_ht : sanitizeEmailPart vt ≠ "") :
    (encodeURI (sanitizeEmailPart vu ++ "@" ++ sanitizeEmailPart vd ++ "." ++
        sanitizeEmailPart vt) =
      sanitizeEmailPart vu ++ "@" ++ sanitizeEmailPart vd ++ "." ++
        sanitizeEmailPart vt) ∧
    (∀ (ctx : SpanCtx) (link : Elem),
      (processProtectedEmailSpan ctx).outcome = SpanOutcome.replacedBy link →
      link.getAttr "href" = some ("mailto:" ++ assembledEmail ctx.elem)) ∧
    (∀ a : Elem, (processProtectedEmailLink a).warnings = [] →
      (processProtectedEmailLink a).elem.getAttr "href" =
        some ("mailto:" ++ assembledEmail a)) := by
  refine ⟨encodeURI_eq_self _ (sanitized_assembly_unescaped vu vd vt), ?_, ?_⟩
  · intro ctx link hrep
    rw [emailSpan_replaced_link ctx link hrep]
    show ([("href", "mailto:" ++ encodeURI (assembledEmail ctx.elem)),
          ("aria-label", "Send email to " ++ assembledEmail ctx.elem),
          ("rel", "noopener")] : List (String × String)).lookup "href" =
      some ("mailto:" ++ assembledEmail ctx.elem)
    rw [List.lookup_cons_self, encodeURI_assembledEmail]
  · intro a h
    rw [emailLink_success_shape a h]
    show (emailLinkAttrs a).lookup "href" = some ("mailto:" ++ assembledEmail a)
    unfold emailLinkAttrs
    rw [lookup_setAttr_ne _ _ _ _ (by decide),
      lookup_setAttr_ne _ _ _ _ (by decide),
      lookup_setAttr_self, encodeURI_assembledEmail]

/-- Witness for C9 at concrete sanitizer outputs. -/
theorem sanitized_email_uri_fixed_witness :
    encodeURI (sanitizeEmailPart (JSVal.str "ab") ++ "@" ++
        sanitizeEmailPart (JSVal.str "cd") ++ "." ++
        sanitizeEmailPart (JSVal.str "io")) =
      sanitizeEmailPart (JSVal.str "ab") ++ "@" ++
        sanitizeEmailPart (JSVal.str "cd") ++ "." ++
        sanitizeEmailPart (JSVal.str "io") :=
  (sanitized_email_uri_fixed (JSVal.str "ab") (JSVal.str "cd") (JSVal.str "io")
    (by decide) (by decide) (by decide)).1
